import Mathlib

/-!
Shallow embedding of the conduit backend orchestration core:
the background workspace status scheduler (`src/web/status_manager.rs`),
the session registry / broadcast relay and the realtime gateway loop
(`src/web/ws/handler.rs`).

Concurrency is embedded by splitting each spawned task into its
synchronous phases (the part that runs under the relevant lock) and
letting a trace interleave those phases explicitly; cancellation tokens
are modelled as numeric ids together with the set of ids that have been
cancelled.  Machine integers (`u64` generation counters, `usize`
concurrency) are modelled as `Nat` with explicit saturation where the
source saturates.
-/

namespace Conduit

/-- Association-list lookup, in the role of `HashMap::get` keyed by `Uuid`
(session / workspace ids are modelled as `Nat`). -/
def alistLookup {α : Type} : List (Nat × α) → Nat → Option α
  | [], _ => none
  | (k', v) :: rest, k => if k' = k then some v else alistLookup rest k

/-- Association-list insert-or-replace, in the role of `HashMap::insert`. -/
def alistInsert {α : Type} : List (Nat × α) → Nat → α → List (Nat × α)
  | [], k, v => [(k, v)]
  | (k', v') :: rest, k, v =>
    if k' = k then (k, v) :: rest else (k', v') :: alistInsert rest k v

/-- Association-list removal, in the role of `HashMap::remove` (keys are
unique in a `HashMap`, so removing every binding of the key is the same
operation). -/
def alistRemove {α : Type} : List (Nat × α) → Nat → List (Nat × α)
  | [], _ => []
  | (k', v') :: rest, k =>
    if k' = k then alistRemove rest k else (k', v') :: alistRemove rest k

/-! ## Status manager (`src/web/status_manager.rs`) -/

/-- Largest `u64` value; the generation counter saturates here
(`saturating_add`). -/
def u64Max : Nat := 2 ^ 64 - 1

/-- Semantics of `u64::saturating_add(1)` on the generation counter. -/
def satAdd1 (g : Nat) : Nat := min (g + 1) u64Max

/-- Subset of `Config` consumed by `StatusManagerConfig::from_config`
(`config.web_status`); durations are milliseconds. -/
structure WebStatusConfig where
  initial_scan : Bool
  status_scan_concurrency : Nat
  selected_refresh_interval_ms : Nat
  pr_refresh_interval_ms : Nat
deriving DecidableEq

/-- `StatusManagerConfig` (status_manager.rs lines 22-28); the two
`Duration` fields are kept in milliseconds. -/
structure StatusManagerConfig where
  initial_scan : Bool
  concurrency : Nat
  selected_refresh_interval : Nat
  pr_refresh_interval : Nat
deriving DecidableEq

/-- `StatusManagerConfig::from_config` (status_manager.rs lines 30-42):
`concurrency` is `web_status.status_scan_concurrency.max(1)`. -/
def StatusManagerConfig.from_config (web_status : WebStatusConfig) : StatusManagerConfig :=
  { initial_scan := web_status.initial_scan
    concurrency := max web_status.status_scan_concurrency 1
    selected_refresh_interval := web_status.selected_refresh_interval_ms
    pr_refresh_interval := web_status.pr_refresh_interval_ms }

/-- `RefreshPlan` (status_manager.rs lines 44-48). -/
structure RefreshPlan where
  force_git : Bool
  force_pr : Bool
deriving DecidableEq

/-- `RefreshPlan::initial` (lines 51-56). -/
def RefreshPlan.start_scan : RefreshPlan := { force_git := true, force_pr := true }

/-- `RefreshPlan::active_tick` (lines 58-63): git forced, PR not forced. -/
def RefreshPlan.active_tick : RefreshPlan := { force_git := true, force_pr := false }

/-- `RefreshPlan::force_all` (lines 65-70). -/
def RefreshPlan.force_all : RefreshPlan := { force_git := true, force_pr := true }

/-- `GitDiffStatsResponse` (status_types.rs). -/
structure GitDiffStatsResponse where
  additions : Nat
  deletions : Nat
  files_changed : Nat
deriving DecidableEq

/-- `PrStatusResponse` (status_types.rs). -/
structure PrStatusResponse where
  number : Nat
  state : String
  checks_passing : Bool
  url : Option String
  merge_readiness : Option String
  checks_total : Option Nat
  checks_passed : Option Nat
  checks_failed : Option Nat
  checks_pending : Option Nat
  checks_skipped : Option Nat
  mergeable : Option String
  review_decision : Option String
deriving DecidableEq

/-- `WorkspaceStatusResponse` (status_types.rs); `updated_at` is a UTC
timestamp modelled as milliseconds. -/
structure WorkspaceStatusResponse where
  git_stats : Option GitDiffStatsResponse
  pr_status : Option PrStatusResponse
  updated_at : Option Nat
deriving DecidableEq

/-- Default `WorkspaceStatusResponse` (`#[derive(Default)]`). -/
def WorkspaceStatusResponse.default : WorkspaceStatusResponse :=
  { git_stats := none, pr_status := none, updated_at := none }

/-- `WorkspaceEntry` (status_manager.rs lines 73-81).  `Instant`s are
modelled as `Nat` milliseconds and the in-flight `CancellationToken` as a
numeric token id. -/
structure WorkspaceEntry where
  path : String
  status : WorkspaceStatusResponse
  last_git_at : Option Nat
  last_pr_at : Option Nat
  refresh_generation : Nat
  in_flight : Option Nat
deriving DecidableEq

/-- `StatusManagerInner` (lines 83-89).  `cancelled` is the set of token
ids on which `CancellationToken::cancel` has been called and `nextToken`
a fresh supply for `CancellationToken::new`; `semaphorePermits` is the
permit count the shared `Semaphore` was created with. -/
structure StatusManagerInner where
  config : StatusManagerConfig
  workspaces : List (Nat × WorkspaceEntry)
  active_workspace : Option Nat
  semaphorePermits : Nat
  initial_scan_started : Bool
  cancelled : List Nat
  nextToken : Nat
deriving DecidableEq

/-- `StatusManager::new` (lines 97-109): the semaphore is created with
`config.concurrency` permits. -/
def StatusManager.new (config : StatusManagerConfig) : StatusManagerInner :=
  { config := config
    workspaces := []
    active_workspace := none
    semaphorePermits := config.concurrency
    initial_scan_started := false
    cancelled := []
    nextToken := 0 }

/-- `StatusManager::register_workspace` (lines 145-163): an existing
entry only has its `path` updated; otherwise a fresh default entry is
inserted. -/
def register_workspace (inner : StatusManagerInner) (workspace_id : Nat)
    (path : String) : StatusManagerInner :=
  match alistLookup inner.workspaces workspace_id with
  | some entry =>
    { inner with
      workspaces := alistInsert inner.workspaces workspace_id { entry with path := path } }
  | none =>
    { inner with
      workspaces := alistInsert inner.workspaces workspace_id
        { path := path
          status := WorkspaceStatusResponse.default
          last_git_at := none
          last_pr_at := none
          refresh_generation := 0
          in_flight := none } }

/-- Data captured by the synchronous head of `schedule_refresh`
(lines 192-226) and moved into the spawned refresh task. -/
structure DispatchRec where
  workspace_id : Nat
  path : String
  token : Nat
  generation : Nat
  do_git : Bool
  do_pr : Bool
deriving DecidableEq

/-- Synchronous head of `StatusManager::schedule_refresh` (lines
192-226): determine due facets, cancel any in-flight token, bump the
generation counter (`saturating_add(1)`), install a fresh token, and
return the data the spawned task captures (`none` when no work is
dispatched). -/
def schedule_refresh_dispatch (inner : StatusManagerInner) (workspace_id : Nat)
    (plan : RefreshPlan) (now : Nat) : StatusManagerInner × Option DispatchRec :=
  match alistLookup inner.workspaces workspace_id with
  | none => (inner, none)
  | some entry =>
    let git_due := match entry.last_git_at with
      | some ts => decide (inner.config.selected_refresh_interval ≤ now - ts)
      | none => true
    let pr_due := match entry.last_pr_at with
      | some ts => decide (inner.config.pr_refresh_interval ≤ now - ts)
      | none => true
    let do_git := plan.force_git || git_due
    let do_pr := plan.force_pr || pr_due
    if !do_git && !do_pr then (inner, none)
    else
      let cancelled' := match entry.in_flight with
        | some t => t :: inner.cancelled
        | none => inner.cancelled
      let generation := satAdd1 entry.refresh_generation
      let token := inner.nextToken
      let entry' := { entry with refresh_generation := generation, in_flight := some token }
      ({ inner with
          workspaces := alistInsert inner.workspaces workspace_id entry'
          cancelled := cancelled'
          nextToken := inner.nextToken + 1 },
       some { workspace_id := workspace_id, path := entry.path, token := token,
              generation := generation, do_git := do_git, do_pr := do_pr })

/-- Commit phase of the spawned refresh task (lines 228-315).  `envGit`
and `envPr` are the results the external git / PR tools would produce on
this dispatch (already `none` when the tool reports no data).  The task
returns without committing when its token has been cancelled, the entry
has been removed, or the entry's generation no longer equals the
dispatch's captured generation; otherwise it writes only the facets it
computed, their timestamps, and the `updated_at` marker, and clears the
in-flight handle. -/
def refresh_task_commit (inner : StatusManagerInner) (d : DispatchRec)
    (envGit : Option GitDiffStatsResponse) (envPr : Option PrStatusResponse)
    (now utcNow : Nat) : StatusManagerInner :=
  if d.token ∈ inner.cancelled then inner
  else
    let git_stats := if d.do_git then envGit else none
    let pr_status := if d.do_pr then envPr else none
    match alistLookup inner.workspaces d.workspace_id with
    | none => inner
    | some entry =>
      if entry.refresh_generation ≠ d.generation then inner
      else
        let entry' : WorkspaceEntry :=
          { entry with
            status :=
              { git_stats := if d.do_git then git_stats else entry.status.git_stats
                pr_status := if d.do_pr then pr_status else entry.status.pr_status
                updated_at := some utcNow }
            last_git_at := if d.do_git then some now else entry.last_git_at
            last_pr_at := if d.do_pr then some now else entry.last_pr_at
            in_flight := none }
        { inner with workspaces := alistInsert inner.workspaces d.workspace_id entry' }

/-! ## Session registry and broadcast relay (`src/web/ws/handler.rs`) -/

/-- `AgentType` (agent module): the closed set of vendors. -/
inductive AgentType
  | claude
  | codex
  | gemini
deriving DecidableEq

/-- Modelled from the spec: `AgentType::display_name` lives in the agent
module, which is not among the verified sources; the spec only needs a
per-vendor display string for the availability error message. -/
def AgentType.display_name : AgentType → String
  | .claude => "Claude"
  | .codex => "Codex"
  | .gemini => "Gemini"

/-- `SessionInitEvent` (agent module, shape visible in ws/tests.rs):
carries the vendor-assigned session id and an optional model name. -/
structure SessionInitEvent where
  session_id : String
  model : Option String
deriving DecidableEq

/-- Modelled from the spec: the agent event stream (agent module, not
among the verified sources) carries assistant output, tool invocations,
session-init metadata, errors and completion.  The registry inspects
only the session-init variant, so all other variants are kept opaque. -/
inductive AgentEvent
  | sessionInit (init : SessionInitEvent)
  | opaque_event (payload : String)
deriving DecidableEq

/-- `AgentInput` (agent module): one vendor takes line-delimited JSON,
the others a structured prompt-plus-attachments form. -/
inductive AgentInput
  | claudeJsonl (line : String)
  | codexPrompt (text : String) (images : List String)
deriving DecidableEq

/-- `ActiveSession` (handler.rs lines 20-28).  The broadcast sender and
the input sender are modelled as channel ids; `input_tx` is `none` when
the vendor's input sink was not retained. -/
structure ActiveSession where
  agent_type : AgentType
  pid : Nat
  event_tx : Nat
  input_tx : Option Nat
deriving DecidableEq

/-- State owned by `SessionManager` (handler.rs lines 31-34):
the `Uuid → ActiveSession` map plus a fresh supply of broadcast channel
ids for `broadcast::channel`. -/
structure SessionManagerState where
  sessions : List (Nat × ActiveSession)
  nextChannel : Nat
deriving DecidableEq

/-- `AgentStartConfig` as built in `start_session` (lines 101-105). -/
structure AgentStartConfig where
  prompt : String
  working_dir : String
  model : Option String
deriving DecidableEq

/-- Handle returned by `runner.start` (agent module): pid, optional
input sink, and the process's single-consumer event stream, modelled as
the full list of events the process will emit. -/
structure AgentHandle where
  pid : Nat
  input_tx : Option Nat
  events : List AgentEvent

/-- Environment supplied by the agent runners (collaborators outside the
verified sources): per-vendor availability and the outcome of
`runner.start` for the call under consideration. -/
structure RunnerEnv where
  available : AgentType → Bool
  start : AgentStartConfig → Except String AgentHandle

/-- Error message of handler.rs line 85. -/
def alreadyRunningMsg (session_id : Nat) : String :=
  "Session " ++ toString session_id ++ " is already running"

/-- Error message of handler.rs lines 177, 210, 245 (`NotFound`). -/
def notFoundMsg (session_id : Nat) : String :=
  "Session " ++ toString session_id ++ " not found"

/-- Error message of handler.rs line 98 (`Unavailable`). -/
def unavailableMsg (agent_type : AgentType) : String :=
  agent_type.display_name ++ " is not available"

/-- Error message of handler.rs line 111 (`SpawnFailure`); the runner's
own error text is appended. -/
def startFailedMsg (e : String) : String :=
  "Failed to start agent: " ++ e

/-- Error message of handler.rs line 216 (`Unsupported`). -/
def noInputMsg : String := "Session does not support input"

/-- Receiving end of a session's broadcast: the channel id plus the
position in the channel's log from which this receiver reads
(`broadcast::Receiver` sees exactly the events sent after it was
created, in send order). -/
structure Receiver where
  channel : Nat
  cursor : Nat
deriving DecidableEq

/-- Outcome of `start_session`: the new state, whether `runner.start`
was invoked at all, and the returned receiver or error. -/
structure StartOutcome where
  state : SessionManagerState
  runner_started : Bool
  result : Except String Receiver

/-- `SessionManager::start_session` (handler.rs lines 73-166): reject a
live duplicate id, check vendor availability, invoke the runner, create
the broadcast channel, insert the entry and return the receiver.  The
spawned pump task is modelled separately by `relay_run` / `pump_finish`. -/
def start_session (env : RunnerEnv) (st : SessionManagerState) (session_id : Nat)
    (agent_type : AgentType) (prompt : String) (working_dir : String)
    (model : Option String) : StartOutcome :=
  if (alistLookup st.sessions session_id).isSome then
    { state := st, runner_started := false,
      result := .error (alreadyRunningMsg session_id) }
  else if ¬ env.available agent_type then
    { state := st, runner_started := false,
      result := .error (unavailableMsg agent_type) }
  else
    match env.start { prompt := prompt, working_dir := working_dir, model := model } with
    | .error e =>
      { state := st, runner_started := true, result := .error (startFailedMsg e) }
    | .ok handle =>
      let channel := st.nextChannel
      let entry : ActiveSession :=
        { agent_type := agent_type, pid := handle.pid, event_tx := channel,
          input_tx := handle.input_tx }
      { state :=
          { sessions := alistInsert st.sessions session_id entry
            nextChannel := channel + 1 }
        runner_started := true
        result := .ok { channel := channel, cursor := 0 } }

/-- `SessionManager::subscribe` (lines 169-179): a fresh receiver on the
session's broadcast channel, reading from the current end of the log, or
`NotFound`.  `logs` maps each channel id to the events sent so far. -/
def subscribe (st : SessionManagerState) (logs : List (Nat × List AgentEvent))
    (session_id : Nat) : Except String Receiver :=
  match alistLookup st.sessions session_id with
  | some session =>
    .ok { channel := session.event_tx,
          cursor := ((alistLookup logs session.event_tx).getD []).length }
  | none => .error (notFoundMsg session_id)

/-- Outcome of `stop_session`: the new state, the pids that were sent a
termination signal, and the returned value. -/
structure StopOutcome where
  state : SessionManagerState
  signals : List Nat
  result : Except String Unit

/-- `SessionManager::stop_session` (lines 182-203): remove the entry if
present and best-effort signal its pid; always returns `Ok(())`. -/
def stop_session (st : SessionManagerState) (session_id : Nat) : StopOutcome :=
  match alistLookup st.sessions session_id with
  | some session =>
    { state := { st with sessions := alistRemove st.sessions session_id }
      signals := [session.pid]
      result := .ok () }
  | none => { state := st, signals := [], result := .ok () }

/-- `SessionManager::send_input` (lines 206-233): `NotFound` if no live
session, `Unsupported` if the input sink was not retained, otherwise the
vendor-specific encoding handed to the input sink. -/
def send_input (st : SessionManagerState) (session_id : Nat) (input : String) :
    Except String AgentInput :=
  match alistLookup st.sessions session_id with
  | none => .error (notFoundMsg session_id)
  | some session =>
    match session.input_tx with
    | none => .error noInputMsg
    | some _ =>
      .ok (match session.agent_type with
        | .claude => .claudeJsonl input
        | .codex => .codexPrompt input []
        | .gemini => .codexPrompt input [])

/-! ### Persistence of the vendor session id, and the relay pump -/

/-- Session-tab record of the external keyed store; only the
`agent_session_id` column is touched by the relay. -/
structure SessionTab where
  agent_session_id : Option String
deriving DecidableEq

/-- State and failure modes of the external persistence store
(collaborator): availability of the store handle, the stored tabs, and
whether `get_by_id` / `update` fail on this call. -/
structure StoreState where
  available : Bool
  tabs : List (Nat × SessionTab)
  get_fails : Bool
  update_fails : Bool
deriving DecidableEq

/-- Outcome of `persist_agent_session_id`: the store afterwards, whether
`store.update` was invoked, and the result. -/
structure PersistOutcome where
  store : StoreState
  update_called : Bool
  result : Except String Unit

/-- `persist_agent_session_id` (handler.rs lines 36-62): fails when the
store is unavailable, the read fails, or the record is missing; returns
`Ok` without writing when the stored id already equals the
vendor-assigned one; otherwise writes the new id (which may itself
fail).  Underlying store error texts are opaque and elided from the
formatted messages. -/
def persist_agent_session_id (store : StoreState) (session_id : Nat)
    (agent_session_id : String) : PersistOutcome :=
  if ¬ store.available then
    { store := store, update_called := false,
      result := .error "Database not available" }
  else if store.get_fails then
    { store := store, update_called := false,
      result := .error ("Failed to get session " ++ toString session_id) }
  else
    match alistLookup store.tabs session_id with
    | none =>
      { store := store, update_called := false,
        result := .error ("Session " ++ toString session_id ++ " not found in database") }
    | some tab =>
      if tab.agent_session_id = some agent_session_id then
        { store := store, update_called := false, result := .ok () }
      else if store.update_fails then
        { store := store, update_called := true,
          result := .error ("Failed to update session " ++ toString session_id) }
      else
        { store := { store with
            tabs := alistInsert store.tabs session_id
              { tab with agent_session_id := some agent_session_id } }
          update_called := true
          result := .ok () }

/-- State threaded through the pump task spawned by `start_session`
(lines 136-159): the persistence store, the session's broadcast log, and
a count of warn-level log lines the task has emitted. -/
structure RelayState where
  store : StoreState
  log : List AgentEvent
  warns : Nat
deriving DecidableEq

/-- One iteration of the pump loop (lines 137-159): a session-init event
first attempts persistence — a failure is logged (warn) and otherwise
ignored — and every event is then sent to the broadcast channel in
arrival order. -/
def relay_step (session_id : Nat) (rs : RelayState) (event : AgentEvent) : RelayState :=
  let rs' := match event with
    | .sessionInit init =>
      let p := persist_agent_session_id rs.store session_id init.session_id
      match p.result with
      | .ok _ => { rs with store := p.store }
      | .error _ => { rs with store := p.store, warns := rs.warns + 1 }
    | .opaque_event _ => rs
  { rs' with log := rs'.log ++ [event] }

/-- The pump loop over the whole event stream. -/
def relay_run (session_id : Nat) (rs : RelayState) : List AgentEvent → RelayState
  | [] => rs
  | e :: rest => relay_run session_id (relay_step session_id rs e) rest

/-- End of the pump (lines 160-162): when the event source ends, the
session entry is unconditionally removed from the map. -/
def pump_finish (st : SessionManagerState) (session_id : Nat) : SessionManagerState :=
  { st with sessions := alistRemove st.sessions session_id }

/-- Events a receiver at `cursor` observes from a channel log: exactly
the events sent after the receiver was created, in send order. -/
def receivedFrom (log : List AgentEvent) (cursor : Nat) : List AgentEvent :=
  log.drop cursor

/-! ### Gateway connection loop (`handle_websocket`, handler.rs lines 283-515) -/

/-- A per-subscription forwarding task: pumps one broadcast receiver
into the connection's outbound queue. -/
structure ForwardTask where
  session_id : Nat
  channel : Nat
  cursor : Nat
deriving DecidableEq

/-- Per-connection state (lines 305-307): `subs` is the
`session id → JoinHandle` map; `tasks` are the forwarding tasks that are
actually running (spawned and not aborted), which includes tasks whose
handle was dropped out of `subs` without being aborted. -/
structure ConnState where
  subs : List (Nat × Nat)
  tasks : List (Nat × ForwardTask)
  nextTask : Nat
deriving DecidableEq

/-- `ClientMessage::Subscribe` handling (lines 340-365): on success a
new forwarding task is spawned and inserted into `subs`; the replaced
`JoinHandle`, if any, is dropped — dropping a `JoinHandle` detaches the
task, it does not abort it, so the prior task stays running.  The `Bool`
reports whether a `subscribed` ack (vs an error frame) was sent. -/
def handle_subscribe (st : SessionManagerState) (logs : List (Nat × List AgentEvent))
    (conn : ConnState) (session_id : Nat) : ConnState × Bool :=
  match subscribe st logs session_id with
  | .ok receiver =>
    let task := conn.nextTask
    ({ subs := alistInsert conn.subs session_id task
       tasks := alistInsert conn.tasks task
         { session_id := session_id, channel := receiver.channel,
           cursor := receiver.cursor }
       nextTask := task + 1 }, true)
  | .error _ => (conn, false)

/-- `ClientMessage::Unsubscribe` handling (lines 367-373): the tracked
task, if any, is removed from the map and aborted. -/
def handle_unsubscribe (conn : ConnState) (session_id : Nat) : ConnState :=
  match alistLookup conn.subs session_id with
  | some task =>
    { conn with subs := alistRemove conn.subs session_id
                tasks := alistRemove conn.tasks task }
  | none => conn

/-- Number of copies of a newly published event on `channel` that reach
this connection's outbound queue: one per live forwarding task reading
that channel. -/
def deliveries (conn : ConnState) (channel : Nat) : Nat :=
  (conn.tasks.filter (fun p => p.2.channel = channel)).length

/-! ## Association-list lemmas -/

theorem alistLookup_insert_self {α : Type} (m : List (Nat × α)) (k : Nat) (v : α) :
    alistLookup (alistInsert m k v) k = some v := by
  induction m with
  | nil => simp [alistInsert, alistLookup]
  | cons p rest ih =>
    obtain ⟨k', v'⟩ := p
    by_cases h : k' = k
    · simp [alistInsert, alistLookup, h]
    · simp [alistInsert, alistLookup, h, ih]

theorem alistLookup_insert_other {α : Type} (m : List (Nat × α)) (k j : Nat) (v : α)
    (h : j ≠ k) : alistLookup (alistInsert m k v) j = alistLookup m j := by
  induction m with
  | nil => simp [alistInsert, alistLookup, Ne.symm h]
  | cons p rest ih =>
    obtain ⟨k', v'⟩ := p
    by_cases hk : k' = k
    · subst hk
      simp [alistInsert, alistLookup, Ne.symm h]
    · by_cases hj : k' = j <;> simp [alistInsert, alistLookup, hk, hj, ih, h]

theorem alistLookup_remove_self {α : Type} (m : List (Nat × α)) (k : Nat) :
    alistLookup (alistRemove m k) k = none := by
  induction m with
  | nil => simp [alistRemove, alistLookup]
  | cons p rest ih =>
    obtain ⟨k', v'⟩ := p
    by_cases h : k' = k <;> simp [alistRemove, alistLookup, h, ih]

theorem alistLookup_remove_other {α : Type} (m : List (Nat × α)) (k j : Nat)
    (h : j ≠ k) : alistLookup (alistRemove m k) j = alistLookup m j := by
  induction m with
  | nil => simp [alistRemove]
  | cons p rest ih =>
    obtain ⟨k', v'⟩ := p
    by_cases hk : k' = k
    · subst hk
      simp [alistRemove, alistLookup, Ne.symm h, ih]
    · by_cases hj : k' = j <;> simp [alistRemove, alistLookup, hk, hj, ih, h]

/-! ## Relay lemmas (shared by the ordering and error-isolation claims) -/

theorem relay_step_log (session_id : Nat) (rs : RelayState) (e : AgentEvent) :
    (relay_step session_id rs e).log = rs.log ++ [e] := by
  cases e with
  | sessionInit init =>
    unfold relay_step
    cases h : (persist_agent_session_id rs.store session_id init.session_id).result <;>
      simp [h]
  | opaque_event p => rfl

theorem relay_run_log (session_id : Nat) (rs : RelayState) (events : List AgentEvent) :
    (relay_run session_id rs events).log = rs.log ++ events := by
  induction events generalizing rs with
  | nil => simp [relay_run]
  | cons e rest ih => simp [relay_run, ih, relay_step_log]

/-! ## Claims -/

/-- C9: every `StatusManagerConfig` derived by `from_config` has
admission-pool concurrency at least 1 — a configured
`status_scan_concurrency` of 0 is clamped to 1 — and the shared
semaphore is created with exactly that many permits, so it always has at
least one slot. -/
theorem claim_C9_concurrency_clamped (web_status : WebStatusConfig) :
    1 ≤ (StatusManagerConfig.from_config web_status).concurrency
    ∧ (StatusManagerConfig.from_config
        { web_status with status_scan_concurrency := 0 }).concurrency = 1
    ∧ (StatusManager.new (StatusManagerConfig.from_config web_status)).semaphorePermits
        = (StatusManagerConfig.from_config web_status).concurrency
    ∧ 1 ≤ (StatusManager.new
        (StatusManagerConfig.from_config web_status)).semaphorePermits := by
  refine ⟨Nat.le_max_right _ _, ?_, rfl, Nat.le_max_right _ _⟩
  simp [StatusManagerConfig.from_config]

/-- C10: calling `register_workspace` for an already-registered
workspace id updates only the stored filesystem path: the entry keeps
its cached status snapshot, both last-refreshed timestamps, its
generation counter and its in-flight cancellation handle; other
workspaces are untouched and no cancellation token is cancelled. -/
theorem claim_C10_reregister_updates_only_path (inner : StatusManagerInner)
    (workspace_id : Nat) (entry : WorkspaceEntry) (path : String)
    (h : alistLookup inner.workspaces workspace_id = some entry) :
    alistLookup (register_workspace inner workspace_id path).workspaces workspace_id
      = some { entry with path := path }
    ∧ (∀ other, other ≠ workspace_id →
        alistLookup (register_workspace inner workspace_id path).workspaces other
          = alistLookup inner.workspaces other)
    ∧ (register_workspace inner workspace_id path).cancelled = inner.cancelled
    ∧ (register_workspace inner workspace_id path).config = inner.config
    ∧ (register_workspace inner workspace_id path).active_workspace
        = inner.active_workspace
    ∧ (register_workspace inner workspace_id path).nextToken = inner.nextToken := by
  simp only [register_workspace, h]
  refine ⟨alistLookup_insert_self _ _ _,
    fun other ho => alistLookup_insert_other _ _ _ _ ho, ?_, ?_, ?_, ?_⟩ <;> trivial

def c10Entry : WorkspaceEntry :=
  { path := "/ws/old"
    status := { git_stats := some { additions := 1, deletions := 2, files_changed := 3 }
                pr_status := none, updated_at := some 100 }
    last_git_at := some 5
    last_pr_at := some 7
    refresh_generation := 3
    in_flight := some 0 }

def c10Inner : StatusManagerInner :=
  { config := { initial_scan := true, concurrency := 2
                selected_refresh_interval := 10, pr_refresh_interval := 60 }
    workspaces := [(1, c10Entry)]
    active_workspace := none
    semaphorePermits := 2
    initial_scan_started := true
    cancelled := []
    nextToken := 1 }

/-- C10 witness: the re-registration frame property evaluated on a
concrete already-registered workspace. -/
theorem claim_C10_witness :
    alistLookup c10Inner.workspaces 1 = some c10Entry
    ∧ (alistLookup (register_workspace c10Inner 1 "/ws/new").workspaces 1
        = some { c10Entry with path := "/ws/new" }
      ∧ (∀ other, other ≠ 1 →
          alistLookup (register_workspace c10Inner 1 "/ws/new").workspaces other
            = alistLookup c10Inner.workspaces other)
      ∧ (register_workspace c10Inner 1 "/ws/new").cancelled = c10Inner.cancelled
      ∧ (register_workspace c10Inner 1 "/ws/new").config = c10Inner.config
      ∧ (register_workspace c10Inner 1 "/ws/new").active_workspace
          = c10Inner.active_workspace
      ∧ (register_workspace c10Inner 1 "/ws/new").nextToken = c10Inner.nextToken) :=
  ⟨by decide, claim_C10_reregister_updates_only_path c10Inner 1 c10Entry "/ws/new"
    (by decide)⟩

def c4Session : ActiveSession :=
  { agent_type := .claude, pid := 42, event_tx := 0, input_tx := some 0 }

def c4St : SessionManagerState := { sessions := [(7, c4Session)], nextChannel := 1 }

/-- C4 counterexample: after a first `stop_session` call has removed the
entry for session 7, the second call returns `Ok(())` — it does not
observe a `NotFound` error, contrary to the claim. -/
theorem claim_C4_counterexample :
    (stop_session (stop_session c4St 7).state 7).result = Except.ok ()
    ∧ (Except.ok () : Except String Unit) ≠ Except.error (notFoundMsg 7) := by
  refine ⟨rfl, fun hcontra => Except.noConfusion hcontra⟩

/-- C4 (amended): `stop` for a live session id removes the registry
entry immediately (without waiting for exit confirmation) and signals
the pid once; a repeated call is idempotent — it leaves the state
unchanged, sends no duplicate termination signal, and returns `Ok(())`
(success, not a `NotFound` error) and never crashes. -/
theorem claim_C4_stop_idempotent_ok (st : SessionManagerState) (session_id : Nat)
    (session : ActiveSession)
    (h : alistLookup st.sessions session_id = some session) :
    (stop_session st session_id).result = Except.ok ()
    ∧ (stop_session st session_id).signals = [session.pid]
    ∧ alistLookup (stop_session st session_id).state.sessions session_id = none
    ∧ (stop_session (stop_session st session_id).state session_id).state
        = (stop_session st session_id).state
    ∧ (stop_session (stop_session st session_id).state session_id).signals = []
    ∧ (stop_session (stop_session st session_id).state session_id).result
        = Except.ok () := by
  have h1 : stop_session st session_id =
      { state := { st with sessions := alistRemove st.sessions session_id }
        signals := [session.pid], result := Except.ok () } := by
    simp [stop_session, h]
  rw [h1]
  simp [stop_session, alistLookup_remove_self]

def c4aSession : ActiveSession :=
  { agent_type := .codex, pid := 55, event_tx := 2, input_tx := none }

def c4aSt : SessionManagerState := { sessions := [(9, c4aSession)], nextChannel := 3 }

/-- C4 witness: the amended stop idempotence property evaluated on a
concrete live session. -/
theorem claim_C4_witness :
    alistLookup c4aSt.sessions 9 = some c4aSession
    ∧ ((stop_session c4aSt 9).result = Except.ok ()
      ∧ (stop_session c4aSt 9).signals = [c4aSession.pid]
      ∧ alistLookup (stop_session c4aSt 9).state.sessions 9 = none
      ∧ (stop_session (stop_session c4aSt 9).state 9).state
          = (stop_session c4aSt 9).state
      ∧ (stop_session (stop_session c4aSt 9).state 9).signals = []
      ∧ (stop_session (stop_session c4aSt 9).state 9).result = Except.ok ()) :=
  ⟨by decide, claim_C4_stop_idempotent_ok c4aSt 9 c4aSession (by decide)⟩

def c6Session : ActiveSession :=
  { agent_type := .gemini, pid := 77, event_tx := 4, input_tx := some 1 }

def c6St : SessionManagerState := { sessions := [(3, c6Session)], nextChannel := 5 }

/-- C6 counterexample: after the event source ends and the pump removes
session 3, a subsequent `stop` call returns `Ok(())` — not the
`NotFound` result the claim asserts for all three operations. -/
theorem claim_C6_counterexample :
    (stop_session (pump_finish c6St 3) 3).result = Except.ok ()
    ∧ (stop_session (pump_finish c6St 3) 3).signals = []
    ∧ (Except.ok () : Except String Unit) ≠ Except.error (notFoundMsg 3) := by
  refine ⟨rfl, rfl, fun hcontra => Except.noConfusion hcontra⟩

/-- C6 (amended): when a session's event source ends the pump removes
the registry entry unconditionally; afterwards `subscribe` and
`send_input` for that id return the `NotFound` error, while `stop` is a
no-op returning `Ok(())` with no termination signal. -/
theorem claim_C6_after_stream_end (st : SessionManagerState)
    (logs : List (Nat × List AgentEvent)) (session_id : Nat) (input : String) :
    alistLookup (pump_finish st session_id).sessions session_id = none
    ∧ subscribe (pump_finish st session_id) logs session_id
        = Except.error (notFoundMsg session_id)
    ∧ send_input (pump_finish st session_id) session_id input
        = Except.error (notFoundMsg session_id)
    ∧ (stop_session (pump_finish st session_id) session_id).result = Except.ok ()
    ∧ (stop_session (pump_finish st session_id) session_id).signals = []
    ∧ (stop_session (pump_finish st session_id) session_id).state
        = pump_finish st session_id := by
  have h : alistLookup (pump_finish st session_id).sessions session_id = none :=
    alistLookup_remove_self _ _
  refine ⟨h, ?_, ?_, ?_, ?_, ?_⟩ <;>
    simp [subscribe, send_input, stop_session, h]

/-- C7: `start_session` on a session id with a live registry entry
returns the already-running error for every vendor, leaves the state
unchanged, and never invokes the runner (so no second process is
spawned). -/
theorem claim_C7_already_running (env : RunnerEnv) (st : SessionManagerState)
    (session_id : Nat) (agent_type : AgentType) (prompt working_dir : String)
    (model : Option String) (session : ActiveSession)
    (h : alistLookup st.sessions session_id = some session) :
    (start_session env st session_id agent_type prompt working_dir model).result
      = Except.error (alreadyRunningMsg session_id)
    ∧ (start_session env st session_id agent_type prompt working_dir model).state = st
    ∧ (start_session env st session_id agent_type prompt working_dir
        model).runner_started = false := by
  simp [start_session, h]

def c7Env : RunnerEnv :=
  { available := fun _ => true
    start := fun _ => Except.ok { pid := 9, input_tx := none, events := [] } }

def c7Session : ActiveSession :=
  { agent_type := .claude, pid := 10, event_tx := 0, input_tx := some 0 }

def c7St : SessionManagerState := { sessions := [(2, c7Session)], nextChannel := 1 }

/-- C7 witness: the duplicate-start rejection evaluated on a concrete
live session, for the codex vendor. -/
theorem claim_C7_witness :
    alistLookup c7St.sessions 2 = some c7Session
    ∧ ((start_session c7Env c7St 2 .codex "p" "/wd" none).result
        = Except.error (alreadyRunningMsg 2)
      ∧ (start_session c7Env c7St 2 .codex "p" "/wd" none).state = c7St
      ∧ (start_session c7Env c7St 2 .codex "p" "/wd" none).runner_started = false) :=
  ⟨by decide, claim_C7_already_running c7Env c7St 2 .codex "p" "/wd" none c7Session
    (by decide)⟩

def c3Session : ActiveSession :=
  { agent_type := .claude, pid := 11, event_tx := 0, input_tx := some 0 }

def c3St : SessionManagerState := { sessions := [(5, c3Session)], nextChannel := 1 }

def c3Logs : List (Nat × List AgentEvent) := [(0, [])]

def c3Conn0 : ConnState := { subs := [], tasks := [], nextTask := 0 }

/-- C3 (code bug, evaluated at the failing input): a connection issues
`subscribe` twice for live session 5.  The second `subscribe` replaces
the tracked `JoinHandle` but never aborts the prior forwarding task, so
two forwarding tasks remain live and the next event on the session's
channel is delivered twice to this connection; a subsequent
`unsubscribe` aborts only the tracked (newest) task, leaving the stale
task still delivering. -/
theorem claim_C3_double_delivery :
    deliveries (handle_subscribe c3St c3Logs
      (handle_subscribe c3St c3Logs c3Conn0 5).1 5).1 0 = 2
    ∧ alistLookup (handle_subscribe c3St c3Logs
        (handle_subscribe c3St c3Logs c3Conn0 5).1 5).1.subs 5 = some 1
    ∧ deliveries (handle_unsubscribe (handle_subscribe c3St c3Logs
        (handle_subscribe c3St c3Logs c3Conn0 5).1 5).1 5) 0 = 1 := by
  decide

/-- C8: a failed persistence of the vendor-assigned session id is
logged (one warn line) and never propagated — the relay broadcasts every
event, session-init included, in arrival order whatever the store does,
and continues to the end of the stream; and when the stored id already
equals the vendor-assigned one the write is skipped: persistence returns
`Ok` without calling `update` and leaves the store unchanged. -/
theorem claim_C8_persist_isolated (session_id : Nat) (store store0 : StoreState)
    (log0 : List AgentEvent) (warns0 : Nat) (events : List AgentEvent)
    (tab : SessionTab) (asid : String)
    (hav : store.available = true) (hget : store.get_fails = false)
    (htab : alistLookup store.tabs session_id = some tab)
    (heq : tab.agent_session_id = some asid) :
    (relay_run session_id { store := store0, log := log0, warns := warns0 } events).log
      = log0 ++ events
    ∧ (∀ (rs : RelayState) (init : SessionInitEvent) (e : String),
        (persist_agent_session_id rs.store session_id init.session_id).result
          = Except.error e →
        (relay_step session_id rs (.sessionInit init)).warns = rs.warns + 1
        ∧ (relay_step session_id rs (.sessionInit init)).log
            = rs.log ++ [AgentEvent.sessionInit init])
    ∧ (persist_agent_session_id store session_id asid).result = Except.ok ()
    ∧ (persist_agent_session_id store session_id asid).store = store
    ∧ (persist_agent_session_id store session_id asid).update_called = false := by
  refine ⟨relay_run_log _ _ _, ?_, ?_, ?_, ?_⟩
  · intro rs init e hp
    constructor <;> simp [relay_step, hp]
  all_goals simp [persist_agent_session_id, hav, hget, htab, heq]

def c8Store : StoreState :=
  { available := true
    tabs := [(4, { agent_session_id := some "vendor-abc" })]
    get_fails := false
    update_fails := false }

def c8FailStore : StoreState :=
  { available := false, tabs := [], get_fails := false, update_fails := false }

def c8Events : List AgentEvent :=
  [.sessionInit { session_id := "vendor-abc", model := none }, .opaque_event "tool",
   .opaque_event "done"]

/-- C8 witness: the persistence-isolation property evaluated on a
concrete store whose record already holds the vendor-assigned id, with
the relay driven over a concrete stream against an unavailable store. -/
theorem claim_C8_witness :
    (c8Store.available = true ∧ c8Store.get_fails = false
      ∧ alistLookup c8Store.tabs 4 = some { agent_session_id := some "vendor-abc" }
      ∧ SessionTab.agent_session_id { agent_session_id := some "vendor-abc" }
          = some "vendor-abc")
    ∧ ((relay_run 4 { store := c8FailStore, log := [], warns := 0 } c8Events).log
        = [] ++ c8Events
      ∧ (∀ (rs : RelayState) (init : SessionInitEvent) (e : String),
          (persist_agent_session_id rs.store 4 init.session_id).result
            = Except.error e →
          (relay_step 4 rs (.sessionInit init)).warns = rs.warns + 1
          ∧ (relay_step 4 rs (.sessionInit init)).log
              = rs.log ++ [AgentEvent.sessionInit init])
      ∧ (persist_agent_session_id c8Store 4 "vendor-abc").result = Except.ok ()
      ∧ (persist_agent_session_id c8Store 4 "vendor-abc").store = c8Store
      ∧ (persist_agent_session_id c8Store 4 "vendor-abc").update_called = false) :=
  ⟨⟨by decide, by decide, by decide, by decide⟩,
    claim_C8_persist_isolated 4 c8Store c8FailStore [] 0 c8Events
      { agent_session_id := some "vendor-abc" } "vendor-abc"
      (by decide) (by decide) (by decide) (by decide)⟩

/-- C1: the relay broadcasts the process's events in exactly the order
emitted: starting from the session's fresh (empty) channel log, the log
after the pump ran is the emitted sequence itself; every subscriber
holding a receiver with cursor 0 — the receiver returned by
`start_session`, or one returned by `subscribe` before the first event —
receives exactly the K emitted events in emission order, so any N such
subscribers receive identical sequences; and a receiver at any cursor
receives a suffix of the emitted sequence, so the relay never reorders
within a session. -/
theorem claim_C1_broadcast_order (session_id : Nat) (store : StoreState)
    (events : List AgentEvent) (cursors : List Nat)
    (hc : ∀ c ∈ cursors, c = 0) :
    (relay_run session_id { store := store, log := [], warns := 0 } events).log = events
    ∧ (∀ c ∈ cursors,
        receivedFrom
          (relay_run session_id { store := store, log := [], warns := 0 } events).log c
          = events)
    ∧ (∀ c, List.IsSuffix
        (receivedFrom
          (relay_run session_id { store := store, log := [], warns := 0 } events).log c)
        events) := by
  have hlog :
      (relay_run session_id { store := store, log := [], warns := 0 } events).log
        = events := by
    simpa using relay_run_log session_id { store := store, log := [], warns := 0 } events
  refine ⟨hlog, ?_, ?_⟩
  · intro c hcc
    rw [hc c hcc, hlog]
    rfl
  · intro c
    rw [hlog]
    exact List.drop_suffix c events

def c1Store : StoreState :=
  { available := true
    tabs := [(1, { agent_session_id := none })]
    get_fails := false
    update_fails := false }

def c1Events : List AgentEvent :=
  [.sessionInit { session_id := "vendor-xyz", model := some "m" },
   .opaque_event "assistant", .opaque_event "completion"]

/-- C1 witness: three subscribers attached from the start of a concrete
session each receive the same three events in emission order. -/
theorem claim_C1_witness :
    (∀ c ∈ [0, 0, 0], c = 0)
    ∧ ((relay_run 1 { store := c1Store, log := [], warns := 0 } c1Events).log = c1Events
      ∧ (∀ c ∈ [0, 0, 0],
          receivedFrom
            (relay_run 1 { store := c1Store, log := [], warns := 0 } c1Events).log c
            = c1Events)
      ∧ (∀ c, List.IsSuffix
          (receivedFrom
            (relay_run 1 { store := c1Store, log := [], warns := 0 } c1Events).log c)
          c1Events)) :=
  ⟨by decide, claim_C1_broadcast_order 1 c1Store c1Events [0, 0, 0] (by decide)⟩

/-! ## Dispatch and commit lemmas (shared by the scheduler claims) -/

/-- Shorthand for the workspace entry right after a dispatch: generation
bumped (saturating) and the fresh token installed.  Purely a
proof-structuring abbreviation of what `schedule_refresh_dispatch`
produces. -/
def dispatched_entry (entry : WorkspaceEntry) (token : Nat) : WorkspaceEntry :=
  { entry with refresh_generation := satAdd1 entry.refresh_generation
               in_flight := some token }

/-- Shorthand for the manager state right after a dispatch on `wid`
found `entry` and found work to do. -/
def dispatched_state (inner : StatusManagerInner) (wid : Nat)
    (entry : WorkspaceEntry) : StatusManagerInner :=
  { inner with
    workspaces := alistInsert inner.workspaces wid
      (dispatched_entry entry inner.nextToken)
    cancelled := match entry.in_flight with
      | some t => t :: inner.cancelled
      | none => inner.cancelled
    nextToken := inner.nextToken + 1 }

/-- Shorthand for the dispatch record captured by the spawned task. -/
def dispatch_data (wid : Nat) (entry : WorkspaceEntry) (token : Nat)
    (do_git do_pr : Bool) : DispatchRec :=
  { workspace_id := wid, path := entry.path, token := token
    generation := satAdd1 entry.refresh_generation
    do_git := do_git, do_pr := do_pr }

theorem dispatch_data_workspace_id (wid : Nat) (entry : WorkspaceEntry)
    (token : Nat) (dg dp : Bool) :
    (dispatch_data wid entry token dg dp).workspace_id = wid := rfl

theorem dispatch_force_all_eq (inner : StatusManagerInner) (wid : Nat)
    (entry : WorkspaceEntry) (now : Nat)
    (h : alistLookup inner.workspaces wid = some entry) :
    schedule_refresh_dispatch inner wid RefreshPlan.force_all now =
      (dispatched_state inner wid entry,
       some (dispatch_data wid entry inner.nextToken true true)) := by
  simp [schedule_refresh_dispatch, h, RefreshPlan.force_all, dispatched_state,
    dispatched_entry, dispatch_data]

theorem dispatch_active_tick_pr_within (inner : StatusManagerInner) (wid : Nat)
    (entry : WorkspaceEntry) (now ts : Nat)
    (h : alistLookup inner.workspaces wid = some entry)
    (hts : entry.last_pr_at = some ts)
    (hwithin : now - ts < inner.config.pr_refresh_interval) :
    schedule_refresh_dispatch inner wid RefreshPlan.active_tick now =
      (dispatched_state inner wid entry,
       some (dispatch_data wid entry inner.nextToken true false)) := by
  have hd : decide (inner.config.pr_refresh_interval ≤ now - ts) = false :=
    decide_eq_false (Nat.not_le.mpr hwithin)
  simp [schedule_refresh_dispatch, h, RefreshPlan.active_tick, hts, hd,
    dispatched_state, dispatched_entry, dispatch_data]

theorem commit_cancelled_discard (inner : StatusManagerInner) (d : DispatchRec)
    (envGit : Option GitDiffStatsResponse) (envPr : Option PrStatusResponse)
    (now utcNow : Nat) (hc : d.token ∈ inner.cancelled) :
    refresh_task_commit inner d envGit envPr now utcNow = inner := by
  simp [refresh_task_commit, hc]

theorem commit_applies_both (inner : StatusManagerInner) (d : DispatchRec)
    (envGit : Option GitDiffStatsResponse) (envPr : Option PrStatusResponse)
    (now utcNow : Nat) (entry : WorkspaceEntry)
    (hc : d.token ∉ inner.cancelled)
    (hl : alistLookup inner.workspaces d.workspace_id = some entry)
    (hgen : entry.refresh_generation = d.generation)
    (hdg : d.do_git = true) (hdp : d.do_pr = true) :
    refresh_task_commit inner d envGit envPr now utcNow =
      { inner with
        workspaces := alistInsert inner.workspaces d.workspace_id
          { entry with
            status := { git_stats := envGit, pr_status := envPr
                        updated_at := some utcNow }
            last_git_at := some now
            last_pr_at := some now
            in_flight := none } } := by
  simp [refresh_task_commit, hc, hl, hgen, hdg, hdp]

theorem dispatched_state_cancelled_lt (inner : StatusManagerInner) (wid : Nat)
    (entry : WorkspaceEntry)
    (hcan : ∀ t ∈ inner.cancelled, t < inner.nextToken)
    (hif : ∀ t, entry.in_flight = some t → t < inner.nextToken) :
    ∀ t ∈ (dispatched_state inner wid entry).cancelled, t < inner.nextToken := by
  show ∀ t ∈ (match entry.in_flight with
    | some t => t :: inner.cancelled
    | none => inner.cancelled), t < inner.nextToken
  cases hin : entry.in_flight with
  | none => simpa using hcan
  | some t0 =>
    intro t ht
    rcases List.mem_cons.mp ht with rfl | ht'
    · exact hif t hin
    · exact hcan t ht'

theorem commit_applies_git_only (inner : StatusManagerInner) (d : DispatchRec)
    (envGit : Option GitDiffStatsResponse) (envPr : Option PrStatusResponse)
    (now utcNow : Nat) (entry : WorkspaceEntry)
    (hc : d.token ∉ inner.cancelled)
    (hl : alistLookup inner.workspaces d.workspace_id = some entry)
    (hgen : entry.refresh_generation = d.generation)
    (hdg : d.do_git = true) (hdp : d.do_pr = false) :
    refresh_task_commit inner d envGit envPr now utcNow =
      { inner with
        workspaces := alistInsert inner.workspaces d.workspace_id
          { entry with
            status := { git_stats := envGit
                        pr_status := entry.status.pr_status
                        updated_at := some utcNow }
            last_git_at := some now
            last_pr_at := entry.last_pr_at
            in_flight := none } } := by
  simp [refresh_task_commit, hc, hl, hgen, hdg, hdp]

/-- C2: each dispatched refresh increments the entry's generation
counter — saturating at the u64 maximum, hence monotonically, and by
exactly one whenever the counter is below the maximum — and captures the
new value in the dispatch; a completed refresh whose captured generation
differs from the entry's current generation commits nothing; and when
two force-all refreshes are scheduled in succession for the same
workspace, the first dispatch — resolving before or after the second's
commit — is discarded without modifying the entry while the second
dispatch's data (both facets, both timestamps, the updated-at marker)
is committed. -/
theorem claim_C2_generation_guard
    (inner0 : StatusManagerInner) (wid : Nat) (entry0 : WorkspaceEntry)
    (now1 now2 tn1 utc1 tn2 utc2 : Nat)
    (envG1 envG2 : Option GitDiffStatsResponse)
    (envP1 envP2 : Option PrStatusResponse)
    (h0 : alistLookup inner0.workspaces wid = some entry0)
    (hcan : ∀ t ∈ inner0.cancelled, t < inner0.nextToken)
    (hif : ∀ t, entry0.in_flight = some t → t < inner0.nextToken) :
    (∀ (innerA innerA' : StatusManagerInner) (widA nowA : Nat) (planA : RefreshPlan)
        (dA : DispatchRec) (entryA : WorkspaceEntry),
      alistLookup innerA.workspaces widA = some entryA →
      entryA.refresh_generation ≤ u64Max →
      schedule_refresh_dispatch innerA widA planA nowA = (innerA', some dA) →
      dA.generation = satAdd1 entryA.refresh_generation
      ∧ entryA.refresh_generation ≤ dA.generation
      ∧ (entryA.refresh_generation < u64Max →
          dA.generation = entryA.refresh_generation + 1)
      ∧ alistLookup innerA'.workspaces widA =
          some { entryA with refresh_generation := dA.generation
                             in_flight := some dA.token })
    ∧ (∀ (innerB : StatusManagerInner) (dB : DispatchRec)
        (gB : Option GitDiffStatsResponse) (pB : Option PrStatusResponse)
        (nowB utcB : Nat) (entryB : WorkspaceEntry),
      alistLookup innerB.workspaces dB.workspace_id = some entryB →
      entryB.refresh_generation ≠ dB.generation →
      refresh_task_commit innerB dB gB pB nowB utcB = innerB)
    ∧ (∀ d1 d2 : DispatchRec,
      (schedule_refresh_dispatch inner0 wid RefreshPlan.force_all now1).2 = some d1 →
      (schedule_refresh_dispatch
        (schedule_refresh_dispatch inner0 wid RefreshPlan.force_all now1).1
        wid RefreshPlan.force_all now2).2 = some d2 →
      refresh_task_commit
        (schedule_refresh_dispatch
          (schedule_refresh_dispatch inner0 wid RefreshPlan.force_all now1).1
          wid RefreshPlan.force_all now2).1 d1 envG1 envP1 tn1 utc1
        = (schedule_refresh_dispatch
            (schedule_refresh_dispatch inner0 wid RefreshPlan.force_all now1).1
            wid RefreshPlan.force_all now2).1
      ∧ refresh_task_commit
          (refresh_task_commit
            (schedule_refresh_dispatch
              (schedule_refresh_dispatch inner0 wid RefreshPlan.force_all now1).1
              wid RefreshPlan.force_all now2).1 d2 envG2 envP2 tn2 utc2)
          d1 envG1 envP1 tn1 utc1
        = refresh_task_commit
            (schedule_refresh_dispatch
              (schedule_refresh_dispatch inner0 wid RefreshPlan.force_all now1).1
              wid RefreshPlan.force_all now2).1 d2 envG2 envP2 tn2 utc2
      ∧ alistLookup
          (refresh_task_commit
            (schedule_refresh_dispatch
              (schedule_refresh_dispatch inner0 wid RefreshPlan.force_all now1).1
              wid RefreshPlan.force_all now2).1 d2 envG2 envP2 tn2 utc2).workspaces wid
        = some { entry0 with
            refresh_generation := satAdd1 (satAdd1 entry0.refresh_generation)
            status := { git_stats := envG2, pr_status := envP2
                        updated_at := some utc2 }
            last_git_at := some tn2
            last_pr_at := some tn2
            in_flight := none }) := by
  refine ⟨?_, ?_, ?_⟩
  · intro innerA innerA' widA nowA planA dA entryA hA hgA hdispA
    simp only [schedule_refresh_dispatch, hA] at hdispA
    split at hdispA
    · exact absurd hdispA (by simp)
    · injection hdispA with hst hrec
      injection hrec with hrec
      subst hst
      subst hrec
      refine ⟨rfl, le_min (Nat.le_succ _) hgA, ?_, alistLookup_insert_self _ _ _⟩
      intro hlt
      show satAdd1 entryA.refresh_generation = entryA.refresh_generation + 1
      unfold satAdd1
      exact min_eq_left (Nat.succ_le_of_lt hlt)
  · intro innerB dB gB pB nowB utcB entryB hB hneB
    by_cases hcB : dB.token ∈ innerB.cancelled
    · exact commit_cancelled_discard _ _ _ _ _ _ hcB
    · simp [refresh_task_commit, hcB, hB, hneB]
  · intro d1 d2 e1 e2
    have E1 := dispatch_force_all_eq inner0 wid entry0 now1 h0
    simp only [E1] at e1 e2 ⊢
    injection e1 with e1
    subst e1
    have h1 : alistLookup (dispatched_state inner0 wid entry0).workspaces wid
        = some (dispatched_entry entry0 inner0.nextToken) :=
      alistLookup_insert_self _ _ _
    have E2 := dispatch_force_all_eq (dispatched_state inner0 wid entry0) wid
      (dispatched_entry entry0 inner0.nextToken) now2 h1
    simp only [E2] at e2 ⊢
    injection e2 with e2
    subst e2
    have hS1can := dispatched_state_cancelled_lt inner0 wid entry0 hcan hif
    have hm1 : (dispatch_data wid entry0 inner0.nextToken true true).token ∈
        (dispatched_state (dispatched_state inner0 wid entry0) wid
          (dispatched_entry entry0 inner0.nextToken)).cancelled :=
      List.mem_cons_self _ _
    have hc2 : (dispatch_data wid (dispatched_entry entry0 inner0.nextToken)
          (dispatched_state inner0 wid entry0).nextToken true true).token ∉
        (dispatched_state (dispatched_state inner0 wid entry0) wid
          (dispatched_entry entry0 inner0.nextToken)).cancelled := by
      intro hmem
      rcases List.mem_cons.mp hmem with heq | hmem'
      · exact absurd heq (by simp [dispatch_data, dispatched_state])
      · exact absurd (hS1can _ hmem') (by simp [dispatch_data, dispatched_state])
    have E3 := commit_applies_both
      (dispatched_state (dispatched_state inner0 wid entry0) wid
        (dispatched_entry entry0 inner0.nextToken))
      (dispatch_data wid (dispatched_entry entry0 inner0.nextToken)
        (dispatched_state inner0 wid entry0).nextToken true true)
      envG2 envP2 tn2 utc2
      (dispatched_entry (dispatched_entry entry0 inner0.nextToken)
        (dispatched_state inner0 wid entry0).nextToken)
      hc2 (alistLookup_insert_self _ _ _) rfl rfl rfl
    refine ⟨commit_cancelled_discard _ _ _ _ _ _ hm1, ?_, ?_⟩
    · rw [E3]
      exact commit_cancelled_discard _ _ _ _ _ _ hm1
    · rw [E3]
      exact alistLookup_insert_self _ _ _

def c2Entry : WorkspaceEntry :=
  { path := "/repo/a", status := WorkspaceStatusResponse.default
    last_git_at := none, last_pr_at := none
    refresh_generation := 0, in_flight := none }

def c2Inner : StatusManagerInner :=
  { config := { initial_scan := false, concurrency := 1
                selected_refresh_interval := 3000, pr_refresh_interval := 60000 }
    workspaces := [(1, c2Entry)]
    active_workspace := some 1
    semaphorePermits := 1
    initial_scan_started := true
    cancelled := []
    nextToken := 0 }

def c2Git : GitDiffStatsResponse := { additions := 4, deletions := 1, files_changed := 2 }

def c2Pr : PrStatusResponse :=
  { number := 12, state := "open", checks_passing := true, url := none
    merge_readiness := none, checks_total := none, checks_passed := none
    checks_failed := none, checks_pending := none, checks_skipped := none
    mergeable := none, review_decision := none }

/-- C2 witness: the generation-guard property evaluated on a concrete
workspace with two successive force-all dispatches. -/
theorem claim_C2_witness :
    (alistLookup c2Inner.workspaces 1 = some c2Entry
      ∧ (∀ t ∈ c2Inner.cancelled, t < c2Inner.nextToken)
      ∧ (∀ t, c2Entry.in_flight = some t → t < c2Inner.nextToken))
    ∧ ((∀ (innerA innerA' : StatusManagerInner) (widA nowA : Nat) (planA : RefreshPlan)
          (dA : DispatchRec) (entryA : WorkspaceEntry),
        alistLookup innerA.workspaces widA = some entryA →
        entryA.refresh_generation ≤ u64Max →
        schedule_refresh_dispatch innerA widA planA nowA = (innerA', some dA) →
        dA.generation = satAdd1 entryA.refresh_generation
        ∧ entryA.refresh_generation ≤ dA.generation
        ∧ (entryA.refresh_generation < u64Max →
            dA.generation = entryA.refresh_generation + 1)
        ∧ alistLookup innerA'.workspaces widA =
            some { entryA with refresh_generation := dA.generation
                               in_flight := some dA.token })
      ∧ (∀ (innerB : StatusManagerInner) (dB : DispatchRec)
          (gB : Option GitDiffStatsResponse) (pB : Option PrStatusResponse)
          (nowB utcB : Nat) (entryB : WorkspaceEntry),
        alistLookup innerB.workspaces dB.workspace_id = some entryB →
        entryB.refresh_generation ≠ dB.generation →
        refresh_task_commit innerB dB gB pB nowB utcB = innerB)
      ∧ (∀ d1 d2 : DispatchRec,
        (schedule_refresh_dispatch c2Inner 1 RefreshPlan.force_all 10).2 = some d1 →
        (schedule_refresh_dispatch
          (schedule_refresh_dispatch c2Inner 1 RefreshPlan.force_all 10).1
          1 RefreshPlan.force_all 20).2 = some d2 →
        refresh_task_commit
          (schedule_refresh_dispatch
            (schedule_refresh_dispatch c2Inner 1 RefreshPlan.force_all 10).1
            1 RefreshPlan.force_all 20).1 d1 none none 11 12
          = (schedule_refresh_dispatch
              (schedule_refresh_dispatch c2Inner 1 RefreshPlan.force_all 10).1
              1 RefreshPlan.force_all 20).1
        ∧ refresh_task_commit
            (refresh_task_commit
              (schedule_refresh_dispatch
                (schedule_refresh_dispatch c2Inner 1 RefreshPlan.force_all 10).1
                1 RefreshPlan.force_all 20).1 d2 (some c2Git) (some c2Pr) 21 22)
            d1 none none 11 12
          = refresh_task_commit
              (schedule_refresh_dispatch
                (schedule_refresh_dispatch c2Inner 1 RefreshPlan.force_all 10).1
                1 RefreshPlan.force_all 20).1 d2 (some c2Git) (some c2Pr) 21 22
        ∧ alistLookup
            (refresh_task_commit
              (schedule_refresh_dispatch
                (schedule_refresh_dispatch c2Inner 1 RefreshPlan.force_all 10).1
                1 RefreshPlan.force_all 20).1 d2 (some c2Git) (some c2Pr) 21 22).workspaces 1
          = some { c2Entry with
              refresh_generation := satAdd1 (satAdd1 c2Entry.refresh_generation)
              status := { git_stats := some c2Git, pr_status := some c2Pr
                          updated_at := some 22 }
              last_git_at := some 21
              last_pr_at := some 21
              in_flight := none })) :=
  ⟨⟨by decide, by decide, fun t ht => by simp [c2Entry] at ht⟩,
    claim_C2_generation_guard c2Inner 1 c2Entry 10 20 11 12 21 22
      none (some c2Git) none (some c2Pr)
      (by decide) (by decide) (fun t ht => by simp [c2Entry] at ht)⟩

def c5Cfg : StatusManagerConfig :=
  { initial_scan := false, concurrency := 1
    selected_refresh_interval := 3000, pr_refresh_interval := 60000 }

def c5Fresh : StatusManagerInner :=
  register_workspace (StatusManager.new c5Cfg) 1 "/repo"

def c5Pr : PrStatusResponse :=
  { number := 7, state := "open", checks_passing := true, url := none
    merge_readiness := none, checks_total := none, checks_passed := none
    checks_failed := none, checks_pending := none, checks_skipped := none
    mergeable := none, review_decision := none }

/-- C5 counterexample: on a workspace whose PR facet has never been
refreshed (`last_pr_at = none`), a dispatch with the active-tick plan
produces `do_pr = true` — the PR facet is due, and `force_pr:false`
does not prevent its refresh — and the dispatch's commit overwrites the
cached PR status and its last-refreshed timestamp, contradicting the
claim that an active-tick refresh always leaves them untouched. -/
theorem claim_C5_counterexample :
    (schedule_refresh_dispatch c5Fresh 1 RefreshPlan.active_tick 0).2
      = some { workspace_id := 1, path := "/repo", token := 0, generation := 1
               do_git := true, do_pr := true }
    ∧ (alistLookup c5Fresh.workspaces 1).map WorkspaceEntry.last_pr_at = some none
    ∧ ((alistLookup (refresh_task_commit
          (schedule_refresh_dispatch c5Fresh 1 RefreshPlan.active_tick 0).1
          { workspace_id := 1, path := "/repo", token := 0, generation := 1
            do_git := true, do_pr := true }
          none (some c5Pr) 5 6).workspaces 1).map WorkspaceEntry.last_pr_at)
        = some (some 5)
    ∧ ((alistLookup (refresh_task_commit
          (schedule_refresh_dispatch c5Fresh 1 RefreshPlan.active_tick 0).1
          { workspace_id := 1, path := "/repo", token := 0, generation := 1
            do_git := true, do_pr := true }
          none (some c5Pr) 5 6).workspaces 1).map
        (fun e => e.status.pr_status)) = some (some c5Pr) := by
  refine ⟨?_, ?_, ?_, ?_⟩ <;> decide

/-- C5 (amended): the active-tick plan does not force the PR facet: a
dispatch refreshes the git facet unconditionally, while the PR facet is
recomputed only when its own interval has elapsed or it has never been
refreshed.  When the PR interval has not elapsed — in particular on two
successive active-tick dispatches inside the PR interval — each dispatch
refreshes only git, and both commits update the git facet, its
timestamp and the updated-at marker while leaving the cached PR status
and its last-refreshed timestamp untouched. -/
theorem claim_C5_active_tick_pr_skip
    (inner0 : StatusManagerInner) (wid : Nat) (entry0 : WorkspaceEntry)
    (ts now1 now2 tn1 utc1 tn2 utc2 : Nat)
    (envG1 envG2 : Option GitDiffStatsResponse)
    (envP1 envP2 : Option PrStatusResponse)
    (h0 : alistLookup inner0.workspaces wid = some entry0)
    (hts : entry0.last_pr_at = some ts)
    (hw1 : now1 - ts < inner0.config.pr_refresh_interval)
    (hw2 : now2 - ts < inner0.config.pr_refresh_interval)
    (hcan : ∀ t ∈ inner0.cancelled, t < inner0.nextToken)
    (hif : ∀ t, entry0.in_flight = some t → t < inner0.nextToken) :
    ∀ d1 d2 : DispatchRec,
    (schedule_refresh_dispatch inner0 wid RefreshPlan.active_tick now1).2 = some d1 →
    (schedule_refresh_dispatch
        (refresh_task_commit
          (schedule_refresh_dispatch inner0 wid RefreshPlan.active_tick now1).1
          d1 envG1 envP1 tn1 utc1)
        wid RefreshPlan.active_tick now2).2 = some d2 →
    d1.do_git = true ∧ d1.do_pr = false ∧ d2.do_git = true ∧ d2.do_pr = false
    ∧ alistLookup (refresh_task_commit
          (schedule_refresh_dispatch inner0 wid RefreshPlan.active_tick now1).1
          d1 envG1 envP1 tn1 utc1).workspaces wid
        = some { entry0 with
            refresh_generation := satAdd1 entry0.refresh_generation
            status := { git_stats := envG1
                        pr_status := entry0.status.pr_status
                        updated_at := some utc1 }
            last_git_at := some tn1
            last_pr_at := entry0.last_pr_at
            in_flight := none }
    ∧ alistLookup (refresh_task_commit
          (schedule_refresh_dispatch
            (refresh_task_commit
              (schedule_refresh_dispatch inner0 wid RefreshPlan.active_tick now1).1
              d1 envG1 envP1 tn1 utc1)
            wid RefreshPlan.active_tick now2).1
          d2 envG2 envP2 tn2 utc2).workspaces wid
        = some { entry0 with
            refresh_generation := satAdd1 (satAdd1 entry0.refresh_generation)
            status := { git_stats := envG2
                        pr_status := entry0.status.pr_status
                        updated_at := some utc2 }
            last_git_at := some tn2
            last_pr_at := entry0.last_pr_at
            in_flight := none } := by
  intro d1 d2 e1 e2
  have E1 := dispatch_active_tick_pr_within inner0 wid entry0 now1 ts h0 hts hw1
  simp only [E1] at e1 e2 ⊢
  injection e1 with e1
  subst e1
  have hS1can := dispatched_state_cancelled_lt inner0 wid entry0 hcan hif
  have hc1 : (dispatch_data wid entry0 inner0.nextToken true false).token ∉
      (dispatched_state inner0 wid entry0).cancelled := by
    intro hmem
    exact absurd (hS1can _ hmem) (by simp [dispatch_data])
  have E2c := commit_applies_git_only (dispatched_state inner0 wid entry0)
    (dispatch_data wid entry0 inner0.nextToken true false) envG1 envP1 tn1 utc1
    (dispatched_entry entry0 inner0.nextToken)
    hc1 (alistLookup_insert_self _ _ _) rfl rfl rfl
  simp only [E2c, dispatch_data_workspace_id] at e2 ⊢
  have E3 := dispatch_active_tick_pr_within
    { dispatched_state inner0 wid entry0 with
      workspaces := alistInsert (dispatched_state inner0 wid entry0).workspaces wid
        { dispatched_entry entry0 inner0.nextToken with
          status := { git_stats := envG1
                      pr_status :=
                        (dispatched_entry entry0 inner0.nextToken).status.pr_status
                      updated_at := some utc1 }
          last_git_at := some tn1
          last_pr_at := (dispatched_entry entry0 inner0.nextToken).last_pr_at
          in_flight := none } }
    wid
    { dispatched_entry entry0 inner0.nextToken with
      status := { git_stats := envG1
                  pr_status :=
                    (dispatched_entry entry0 inner0.nextToken).status.pr_status
                  updated_at := some utc1 }
      last_git_at := some tn1
      last_pr_at := (dispatched_entry entry0 inner0.nextToken).last_pr_at
      in_flight := none }
    now2 ts (alistLookup_insert_self _ _ _) hts hw2
  simp only [E3] at e2 ⊢
  injection e2 with e2
  subst e2
  have hc2 : (dispatch_data wid
      { dispatched_entry entry0 inner0.nextToken with
        status := { git_stats := envG1
                    pr_status :=
                      (dispatched_entry entry0 inner0.nextToken).status.pr_status
                    updated_at := some utc1 }
        last_git_at := some tn1
        last_pr_at := (dispatched_entry entry0 inner0.nextToken).last_pr_at
        in_flight := none }
      (dispatched_state inner0 wid entry0).nextToken true false).token ∉
      (dispatched_state
        { dispatched_state inner0 wid entry0 with
          workspaces := alistInsert (dispatched_state inner0 wid entry0).workspaces wid
            { dispatched_entry entry0 inner0.nextToken with
              status := { git_stats := envG1
                          pr_status :=
                            (dispatched_entry entry0 inner0.nextToken).status.pr_status
                          updated_at := some utc1 }
              last_git_at := some tn1
              last_pr_at := (dispatched_entry entry0 inner0.nextToken).last_pr_at
              in_flight := none } }
        wid
        { dispatched_entry entry0 inner0.nextToken with
          status := { git_stats := envG1
                      pr_status :=
                        (dispatched_entry entry0 inner0.nextToken).status.pr_status
                      updated_at := some utc1 }
          last_git_at := some tn1
          last_pr_at := (dispatched_entry entry0 inner0.nextToken).last_pr_at
          in_flight := none }).cancelled := by
    intro hmem
    exact absurd (hS1can _ hmem) (by simp [dispatch_data, dispatched_state])
  have E4 := commit_applies_git_only _ _ envG2 envP2 tn2 utc2
    (dispatched_entry
      { dispatched_entry entry0 inner0.nextToken with
        status := { git_stats := envG1
                    pr_status :=
                      (dispatched_entry entry0 inner0.nextToken).status.pr_status
                    updated_at := some utc1 }
        last_git_at := some tn1
        last_pr_at := (dispatched_entry entry0 inner0.nextToken).last_pr_at
        in_flight := none }
      (dispatched_state inner0 wid entry0).nextToken)
    hc2 (alistLookup_insert_self _ _ _) rfl rfl rfl
  refine ⟨rfl, rfl, rfl, rfl, alistLookup_insert_self _ _ _, ?_⟩
  rw [E4]
  exact alistLookup_insert_self _ _ _

def c5Entry : WorkspaceEntry :=
  { path := "/repo/b"
    status := { git_stats := none, pr_status := some c5Pr, updated_at := some 50 }
    last_git_at := some 0
    last_pr_at := some 100
    refresh_generation := 2
    in_flight := none }

def c5Inner : StatusManagerInner :=
  { config := c5Cfg
    workspaces := [(3, c5Entry)]
    active_workspace := some 3
    semaphorePermits := 1
    initial_scan_started := true
    cancelled := []
    nextToken := 4 }

def c5Git : GitDiffStatsResponse := { additions := 9, deletions := 2, files_changed := 1 }

/-- C5 witness: two concrete active-tick dispatches inside the PR
interval refresh git each time and leave the cached PR status and its
timestamp untouched. -/
theorem claim_C5_witness :
    (alistLookup c5Inner.workspaces 3 = some c5Entry
      ∧ c5Entry.last_pr_at = some 100
      ∧ 5000 - 100 < c5Inner.config.pr_refresh_interval
      ∧ 9000 - 100 < c5Inner.config.pr_refresh_interval
      ∧ (∀ t ∈ c5Inner.cancelled, t < c5Inner.nextToken)
      ∧ (∀ t, c5Entry.in_flight = some t → t < c5Inner.nextToken))
    ∧ (∀ d1 d2 : DispatchRec,
      (schedule_refresh_dispatch c5Inner 3 RefreshPlan.active_tick 5000).2 = some d1 →
      (schedule_refresh_dispatch
          (refresh_task_commit
            (schedule_refresh_dispatch c5Inner 3 RefreshPlan.active_tick 5000).1
            d1 (some c5Git) none 5001 5002)
          3 RefreshPlan.active_tick 9000).2 = some d2 →
      d1.do_git = true ∧ d1.do_pr = false ∧ d2.do_git = true ∧ d2.do_pr = false
      ∧ alistLookup (refresh_task_commit
            (schedule_refresh_dispatch c5Inner 3 RefreshPlan.active_tick 5000).1
            d1 (some c5Git) none 5001 5002).workspaces 3
          = some { c5Entry with
              refresh_generation := satAdd1 c5Entry.refresh_generation
              status := { git_stats := some c5Git
                          pr_status := c5Entry.status.pr_status
                          updated_at := some 5002 }
              last_git_at := some 5001
              last_pr_at := c5Entry.last_pr_at
              in_flight := none }
      ∧ alistLookup (refresh_task_commit
            (schedule_refresh_dispatch
              (refresh_task_commit
                (schedule_refresh_dispatch c5Inner 3 RefreshPlan.active_tick 5000).1
                d1 (some c5Git) none 5001 5002)
              3 RefreshPlan.active_tick 9000).1
            d2 (some c5Git) none 9001 9002).workspaces 3
          = some { c5Entry with
              refresh_generation := satAdd1 (satAdd1 c5Entry.refresh_generation)
              status := { git_stats := some c5Git
                          pr_status := c5Entry.status.pr_status
                          updated_at := some 9002 }
              last_git_at := some 9001
              last_pr_at := c5Entry.last_pr_at
              in_flight := none }) :=
  ⟨⟨by decide, by decide, by decide, by decide, by decide,
      fun t ht => by simp [c5Entry] at ht⟩,
    claim_C5_active_tick_pr_skip c5Inner 3 c5Entry 100 5000 9000 5001 5002 9001 9002
      (some c5Git) (some c5Git) none none
      (by decide) (by decide) (by decide) (by decide) (by decide)
      (fun t ht => by simp [c5Entry] at ht)⟩

end Conduit
